import Mathlib

/-!
Shallow embedding of the authentication code of the job-portal repository.

Sources embedded here:
* `src/job-portal-server/routes/auth.js` (register, verify-email, login,
  forgot-password, reset-password, change-password) together with the
  `config/security.js` helpers concatenated at the bottom of that file
  (`SECURITY_CONFIG`, `checkPasswordStrength`, `passwordValidationRules`,
  `hashPassword`, `comparePassword`).
* `src/getSomeJobServer/routes/mfa.js` (verify-setup, disable,
  verify-backup) together with the MFA helpers of
  `src/unnamed/part_000` (`verifyBackupCode`).

Modelling conventions: millisecond timestamps are `Nat`; the MongoDB
`users` collection is a `List User` keyed by the unique `email`; the two
in-memory `Map`s (`otpStore`, `passwordResetTokens`) are association
lists; bcrypt is modelled as an idealized collision-free hash
(a wrapper around the plaintext, so `comparePassword` is equality);
the external TOTP verifier (speakeasy) is an oracle parameter, since the
routes only branch on its Boolean result; external effects the routes
branch on (captcha outcome, email delivery outcome) are Boolean
parameters.
-/

/-- Idealized bcrypt digest: a collision-free wrapper around the
plaintext, so that `comparePassword` behaves as bcrypt compare does. -/
structure Hash where
  pw : String
deriving DecidableEq, Repr

/-- `config/security.js` `hashPassword` (bcrypt.hash, idealized). -/
def hashPassword (p : String) : Hash := ⟨p⟩

/-- `config/security.js` `comparePassword` (bcrypt.compare, idealized). -/
def comparePassword (p : String) (h : Hash) : Bool := p == h.pw

/-- `SECURITY_CONFIG.PASSWORD.MIN_LENGTH`. -/
def PASSWORD_MIN_LENGTH : Nat := 8

/-- `SECURITY_CONFIG.PASSWORD.MAX_LENGTH`. -/
def PASSWORD_MAX_LENGTH : Nat := 16

/-- `SECURITY_CONFIG.PASSWORD.PREVIOUS_PASSWORDS_COUNT`. -/
def PREVIOUS_PASSWORDS_COUNT : Nat := 5

/-- The fixed special-character set of the regex `[@$!%*?&]`. -/
def specialChars : List Char := ['@', '$', '!', '%', '*', '?', '&']

/-- JavaScript `s.toLowerCase()` (ASCII, as the code only compares
ASCII data). Defined on the character list so that it reduces. -/
def jsToLower (s : String) : String := ⟨s.data.map Char.toLower⟩

/-- JavaScript `s.toUpperCase()` (ASCII). -/
def jsToUpper (s : String) : String := ⟨s.data.map Char.toUpper⟩

/-- Does the character list start with `t`? -/
def startsWithChars : List Char → List Char → Bool
  | [], _ => true
  | _ :: _, [] => false
  | a :: t, b :: s => a == b && startsWithChars t s

/-- Does the second character list contain `t` as a contiguous run? -/
def containsChars (t : List Char) : List Char → Bool
  | [] => t.isEmpty
  | b :: s => startsWithChars t (b :: s) || containsChars t s

/-- The five Boolean checks computed by `checkPasswordStrength`. -/
structure StrengthChecks where
  length : Bool
  lowercase : Bool
  uppercase : Bool
  numbers : Bool
  special : Bool
deriving DecidableEq, Repr

/-- The `checks` object of `checkPasswordStrength`
(`config/security.js` lines 907-913). -/
def strengthChecks (password : String) : StrengthChecks where
  length := decide (PASSWORD_MIN_LENGTH ≤ password.length ∧
                    password.length ≤ PASSWORD_MAX_LENGTH)
  lowercase := password.data.any Char.isLower
  uppercase := password.data.any Char.isUpper
  numbers := password.data.any Char.isDigit
  special := password.data.any (fun c => specialChars.contains c)

/-- `Object.values(checks).filter(Boolean).length`. -/
def scoreOf (c : StrengthChecks) : Nat :=
  [c.length, c.lowercase, c.uppercase, c.numbers, c.special].countP id

/-- Return value of `checkPasswordStrength`. -/
structure PasswordStrength where
  score : Nat
  strength : String
  checks : StrengthChecks
  isValid : Bool
deriving DecidableEq, Repr

/-- `config/security.js` `checkPasswordStrength` (lines 906-924). -/
def checkPasswordStrength (password : String) : PasswordStrength :=
  let checks := strengthChecks password
  let score := scoreOf checks
  { score := score
    strength := if score < 3 then "weak" else if score < 5 then "medium" else "strong"
    checks := checks
    isValid := score == 5 }

/-- The five regex and length conditions of `passwordValidationRules`
(`config/security.js` lines 882-893); they test exactly the same five
conditions as `strengthChecks`. -/
def passwordChecksOk (password : String) : Bool :=
  let c := strengthChecks password
  c.length && c.lowercase && c.uppercase && c.numbers && c.special

/-- The characters before the first `@`, i.e. `email.split('@')[0]`. -/
def takeUntilAt : List Char → List Char
  | [] => []
  | c :: cs => if c == '@' then [] else c :: takeUntilAt cs

/-- `email.toLowerCase().split('@')[0]`, as in the custom rule of
`passwordValidationRules`. -/
def emailUsername (email : String) : String :=
  ⟨takeUntilAt (jsToLower email).data⟩

/-- JavaScript `s.includes(t)`. -/
def strContains (s t : String) : Bool :=
  containsChars t.data s.data

/-- Full `passwordValidationRules`: the five checks plus the custom rule
rejecting a password that contains the email username (the custom rule
only runs when the request body carries an email, as in `register`). -/
def passwordRulesOk (email password : String) : Bool :=
  passwordChecksOk password &&
    !(strContains (jsToLower password) (emailUsername email))

/-- One entry of the `passwordHistory` array. -/
structure HistoryEntry where
  password : Hash
  createdAt : Nat
deriving DecidableEq, Repr

/-- A document of the `users` collection, with the fields the embedded
routes read or write. `email` is the unique key. -/
structure User where
  email : String
  name : String
  role : String
  password : Hash
  isVerified : Bool
  verificationOTP : Option String
  otpExpiry : Option Nat
  passwordHistory : List HistoryEntry
  loginAttempts : Nat
  lockUntil : Option Nat
  lastLogin : Option Nat
deriving DecidableEq, Repr

/-- `db.collection('users').findOne({ email })`. -/
def findUser (db : List User) (email : String) : Option User :=
  db.find? (fun u => u.email == email)

/-- `db.collection('users').updateOne({ email }, ...)` with the given
replacement document for the matched user. -/
def updateUser (db : List User) (email : String) (u' : User) : List User :=
  db.map (fun v => if v.email == email then u' else v)

/-- Association-list lookup, modelling `Map.get`. -/
def lookupStore {α : Type} (store : List (String × α)) (k : String) : Option α :=
  (store.find? (fun p => p.1 == k)).map Prod.snd

/-- `Map.set` (replaces any previous binding of the key). -/
def setStore {α : Type} (store : List (String × α)) (k : String) (v : α) :
    List (String × α) :=
  (k, v) :: store.filter (fun p => !(p.1 == k))

/-- `Map.delete`. -/
def delStore {α : Type} (store : List (String × α)) (k : String) :
    List (String × α) :=
  store.filter (fun p => !(p.1 == k))

/-! ## Login (`routes/auth.js` lines 250-384) -/

/-- `15 * 60 * 1000`, the lockout window set at line 307. -/
def LOCK_WINDOW_MS : Nat := 15 * 60 * 1000

/-- The failed-attempt threshold at line 307. -/
def MAX_LOGIN_ATTEMPTS : Nat := 5

/-- `user.lockUntil && user.lockUntil > Date.now()` (line 287). -/
def lockActive (lockUntil : Option Nat) (now : Nat) : Bool :=
  match lockUntil with
  | none => false
  | some t => now < t

/-- Outcomes of the login route (HTTP status and message in comments). -/
inductive LoginResult where
  | invalidCredentials   -- 401 Invalid credentials
  | accountLocked        -- 423 Account is temporarily locked
  | notVerified          -- 401 Please verify your email
  | success              -- 200 Login successful
deriving DecidableEq, Repr

/-- The login route after captcha and user lookup (lines 286-344):
lock check, verification check, password check; on mismatch increments
`loginAttempts` and sets `lockUntil` when the counter reaches 5; on
success resets the counter, clears the lock and stamps `lastLogin`. -/
def loginUser (u : User) (password : String) (now : Nat) : LoginResult × User :=
  if lockActive u.lockUntil now then
    (.accountLocked, u)
  else if !u.isVerified then
    (.notVerified, u)
  else if comparePassword password u.password then
    (.success, { u with loginAttempts := 0, lockUntil := none, lastLogin := some now })
  else
    let newLoginAttempts := u.loginAttempts + 1
    let lockUntil :=
      if MAX_LOGIN_ATTEMPTS ≤ newLoginAttempts then some (now + LOCK_WINDOW_MS) else none
    (.invalidCredentials, { u with loginAttempts := newLoginAttempts, lockUntil := lockUntil })

/-- The full login route (lines 250-384): captcha, user lookup, then
`loginUser`; the db is written back for the matched user. -/
def login (db : List User) (email password : String) (captchaOk : Bool)
    (now : Nat) : Option LoginResult × List User :=
  if !captchaOk then (none, db)
  else
    match findUser db email with
    | none => (some .invalidCredentials, db)
    | some u =>
      let r := loginUser u password now
      (some r.1, updateUser db email r.2)

/-! ## Registration (`routes/auth.js` lines 25-145) -/

/-- `SECURITY_CONFIG.EMAIL.OTP_EXPIRES_IN` (10 minutes). -/
def OTP_EXPIRES_IN : Nat := 10 * 60 * 1000

/-- An entry of the in-memory `otpStore` (lines 81-85). -/
structure OtpEntry where
  otp : String
  expiry : Nat
  attempts : Nat
deriving DecidableEq, Repr

/-- Outcomes of the register route. -/
inductive RegisterResult where
  | validationError   -- 400, express-validator errors
  | captchaFailed     -- 400, captcha message
  | weakPassword      -- 400 Password does not meet security requirements
  | userExists        -- 400 User already exists
  | deliveryError     -- 500 Failed to send verification email
  | registered        -- 201 Registration successful
deriving DecidableEq, Repr

/-- The register route (lines 25-145). `otherValidOk` stands for the
email/name/role/captchaToken format validators; the password part of the
validation is computed from the strings. `captchaOk` and `emailOk` are
the outcomes of the captcha service and of the verification-email
delivery. Returns the result, the users collection and the OTP store
after the call. On delivery failure the freshly inserted document is
deleted again (lines 114-121). -/
def register (db : List User) (store : List (String × OtpEntry))
    (email name password role : String)
    (otherValidOk captchaOk emailOk : Bool) (otp : String) (now : Nat) :
    RegisterResult × List User × List (String × OtpEntry) :=
  if !(otherValidOk && passwordRulesOk email password) then
    (.validationError, db, store)
  else if !captchaOk then
    (.captchaFailed, db, store)
  else if !(checkPasswordStrength password).isValid then
    (.weakPassword, db, store)
  else
    match findUser db email with
    | some _ => (.userExists, db, store)
    | none =>
      let hashedPassword := hashPassword password
      let otpExpiry := now + OTP_EXPIRES_IN
      let store' := setStore store email ⟨otp, otpExpiry, 0⟩
      let user : User :=
        { email := email
          name := name
          role := role
          password := hashedPassword
          isVerified := false
          verificationOTP := some otp
          otpExpiry := some otpExpiry
          passwordHistory := [⟨hashedPassword, now⟩]
          loginAttempts := 0
          lockUntil := none
          lastLogin := none }
      let db' := db ++ [user]
      if !emailOk then
        -- deleteOne on the inserted id removes exactly the new document
        (.deliveryError, db, store')
      else
        (.registered, db', store')

/-! ## Email verification (`routes/auth.js` lines 148-247) -/

/-- Outcomes of the verify-email route. -/
inductive VerifyEmailResult where
  | userNotFound      -- 404 User not found
  | alreadyVerified   -- 400 Email already verified
  | invalidCode       -- 400 Invalid or expired OTP
  | verified          -- 200 Email verified successfully
deriving DecidableEq, Repr

/-- The verify-email route (lines 148-247): rejects when the stored OTP
is absent, mismatched or expired (`!storedOTP || storedOTP.otp !== otp
|| Date.now() > storedOTP.expiry`, line 183); on success flips
`isVerified`, unsets the OTP fields and deletes the store entry. -/
def verifyEmail (db : List User) (store : List (String × OtpEntry))
    (email otp : String) (now : Nat) :
    VerifyEmailResult × List User × List (String × OtpEntry) :=
  match findUser db email with
  | none => (.userNotFound, db, store)
  | some u =>
    if u.isVerified then (.alreadyVerified, db, store)
    else
      match lookupStore store email with
      | none => (.invalidCode, db, store)
      | some e =>
        if !(e.otp == otp) || decide (e.expiry < now) then
          (.invalidCode, db, store)
        else
          let u' := { u with isVerified := true, verificationOTP := none,
                             otpExpiry := none }
          (.verified, updateUser db email u', delStore store email)

/-! ## Forgot password (`routes/auth.js` lines 387-455) -/

/-- An entry of the in-memory `passwordResetTokens` map (lines 418-422).
The source stores the Mongo `_id` in `userId`; the embedding uses the
unique email as the document key. -/
structure ResetData where
  userId : String
  email : String
  expiry : Nat
deriving DecidableEq, Repr

/-- Reset-token time to live, `60 * 60 * 1000` (line 415). -/
def RESET_TOKEN_TTL : Nat := 60 * 60 * 1000

/-- The uniform `{success, message}` response envelope. -/
structure Envelope where
  success : Bool
  message : String
deriving DecidableEq, Repr

/-- The forgot-password route (lines 387-455). When the user is absent
it answers with a generic success envelope (lines 405-411); when the
user exists it stores a reset token and answers with a different
success message on delivery success (lines 437-440), or a 500 failure
envelope on delivery failure (lines 442-445). `resetToken` stands for
the random token of line 414. -/
def forgotPassword (tokens : List (String × ResetData)) (db : List User)
    (email resetToken : String) (emailOk : Bool) (now : Nat) :
    Envelope × List (String × ResetData) :=
  match findUser db email with
  | none =>
    (⟨true, "If an account with this email exists, a password reset link has been sent"⟩,
     tokens)
  | some u =>
    let tokens' := setStore tokens resetToken ⟨u.email, u.email, now + RESET_TOKEN_TTL⟩
    if emailOk then
      (⟨true, "Password reset link sent to your email"⟩, tokens')
    else
      (⟨false, "Failed to send password reset email"⟩, tokens')

/-! ## Reset password (`routes/auth.js` lines 495-596) -/

/-- Outcomes of the reset-password route. -/
inductive ResetResult where
  | validationError   -- 400, express-validator errors
  | weakPassword      -- 400 Password does not meet security requirements
  | invalidToken      -- 400 Invalid or expired reset token
  | userNotFound      -- 404 User not found
  | historyRejected   -- 400 Password cannot be the same as your previous passwords
  | resetOk           -- 200 Password reset successful
deriving DecidableEq, Repr

/-- The reset-password route (lines 495-596). The request body carries
no email, so the custom username rule of `passwordValidationRules` is
skipped and validation reduces to the five password checks. Rejects a
new password equal to any entry of `passwordHistory` (lines 541-550);
on success prepends the new hash and keeps the first
`PREVIOUS_PASSWORDS_COUNT - 1` old entries (lines 556-559). -/
def resetPassword (tokens : List (String × ResetData)) (db : List User)
    (token password : String) (now : Nat) :
    ResetResult × List (String × ResetData) × List User :=
  if !passwordChecksOk password then (.validationError, tokens, db)
  else if !(checkPasswordStrength password).isValid then (.weakPassword, tokens, db)
  else
    match lookupStore tokens token with
    | none => (.invalidToken, tokens, db)
    | some rd =>
      if decide (rd.expiry < now) then (.invalidToken, tokens, db)
      else
        match findUser db rd.userId with
        | none => (.userNotFound, tokens, db)
        | some u =>
          if u.passwordHistory.any (fun h => comparePassword password h.password) then
            (.historyRejected, tokens, db)
          else
            let hashedPassword := hashPassword password
            let newHist :=
              ⟨hashedPassword, now⟩ ::
                u.passwordHistory.take (PREVIOUS_PASSWORDS_COUNT - 1)
            let u' := { u with password := hashedPassword, passwordHistory := newHist }
            (.resetOk, delStore tokens token, updateUser db u.email u')

/-! ## Change password (`routes/auth.js` lines 599-707) -/

/-- Outcomes of the change-password route. -/
inductive ChangeResult where
  | validationError   -- 400, express-validator errors
  | weakPassword      -- 400 Password does not meet security requirements
  | userNotFound      -- 404 User not found
  | wrongCurrent      -- 401 Current password is incorrect
  | sameAsCurrent     -- 400 New password must be different from current password
  | historyRejected   -- 400 Password cannot be the same as your previous passwords
  | changeOk          -- 200 Password changed successfully
deriving DecidableEq, Repr

/-- The change-password route (lines 599-707); `userId` is the key of
the authenticated user. The body carries no email, so validation is the
five password checks. Verifies the current password, rejects reuse of
the current password or of any history entry, and updates history the
same way reset-password does (lines 670-673). -/
def changePassword (db : List User) (userId currentPassword password : String)
    (now : Nat) : ChangeResult × List User :=
  if !passwordChecksOk password then (.validationError, db)
  else if !(checkPasswordStrength password).isValid then (.weakPassword, db)
  else
    match findUser db userId with
    | none => (.userNotFound, db)
    | some u =>
      if !comparePassword currentPassword u.password then (.wrongCurrent, db)
      else if comparePassword password u.password then (.sameAsCurrent, db)
      else if u.passwordHistory.any (fun h => comparePassword password h.password) then
        (.historyRejected, db)
      else
        let hashedPassword := hashPassword password
        let newHist :=
          ⟨hashedPassword, now⟩ ::
            u.passwordHistory.take (PREVIOUS_PASSWORDS_COUNT - 1)
        let u' := { u with password := hashedPassword, passwordHistory := newHist }
        (.changeOk, updateUser db u.email u')

/-! ## MFA (`src/getSomeJobServer/routes/mfa.js`, helpers in
`src/unnamed/part_000`) -/

/-- A document of the getSomeJobServer `users` collection, with the MFA
fields the routes read or write. `mfaSecret` and `mfaBackupCodes` are
optional because the routes `$unset` them; in JavaScript an unset field
is `undefined` (falsy) while an empty array is truthy, so the absence of
the field is distinct from an empty list. -/
structure MfaUser where
  email : String
  mfaEnabled : Bool
  mfaSetupPending : Bool
  mfaSecret : Option String
  mfaBackupCodes : Option (List String)
deriving DecidableEq, Repr

/-- Outcomes of the MFA routes. -/
inductive MfaResult where
  | notInitiated        -- 400 MFA setup not initiated
  | notEnabled          -- 400 MFA is not enabled for this account
  | invalidToken        -- 400 Invalid MFA token
  | backupUnavailable   -- 400 MFA backup codes not available
  | invalidBackupCode   -- 400 Invalid backup code
  | ok                  -- 200 success
deriving DecidableEq, Repr

/-- `verifyMFAToken` lifted to an optional secret. The TOTP check itself
(speakeasy) is the oracle `totp`; with the secret field absent the
route cannot verify any code (the library errors out on an undefined
secret, which the route surfaces as a failure). -/
def verifyMFATokenOpt (totp : String → String → Bool) (token : String)
    (secret : Option String) : Bool :=
  match secret with
  | none => false
  | some s => totp token s

/-- The verify-setup route (`mfa.js` lines 81-152): requires
`mfaSetupPending` and a stored `mfaSecret` (line 100), verifies the
code, then sets `mfaEnabled`, clears `mfaSetupPending` and `$unset`s
`mfaSecret` (lines 117-129). -/
def verifySetup (totp : String → String → Bool) (u : MfaUser)
    (token : String) : MfaResult × MfaUser :=
  if !u.mfaSetupPending then (.notInitiated, u)
  else
    match u.mfaSecret with
    | none => (.notInitiated, u)
    | some secret =>
      if !totp token secret then (.invalidToken, u)
      else
        (.ok, { u with mfaEnabled := true, mfaSetupPending := false,
                       mfaSecret := none })

/-- The disable route (`mfa.js` lines 155-226): requires `mfaEnabled`,
verifies a current code against `user.mfaSecret`, then clears
`mfaEnabled` and `$unset`s `mfaSecret` and `mfaBackupCodes`. -/
def disableMFA (totp : String → String → Bool) (u : MfaUser)
    (token : String) : MfaResult × MfaUser :=
  if !u.mfaEnabled then (.notEnabled, u)
  else if !verifyMFATokenOpt totp token u.mfaSecret then (.invalidToken, u)
  else
    (.ok, { u with mfaEnabled := false, mfaSecret := none,
                   mfaBackupCodes := none })

/-- `src/unnamed/part_000` lines 698-700:
`backupCodes.includes(code.toUpperCase())`. -/
def verifyBackupCode (code : String) (backupCodes : List String) : Bool :=
  backupCodes.contains (jsToUpper code)

/-- The verify-backup route (`mfa.js` lines 304-388): requires
`mfaEnabled` and a present `mfaBackupCodes` field (line 330), checks the
submitted code through `verifyBackupCode`, and on success stores
`mfaBackupCodes.filter(code => code !== backupCode.toUpperCase())`
(line 356). -/
def verifyBackup (u : MfaUser) (backupCode : String) : MfaResult × MfaUser :=
  if !u.mfaEnabled then (.backupUnavailable, u)
  else
    match u.mfaBackupCodes with
    | none => (.backupUnavailable, u)
    | some codes =>
      if !verifyBackupCode backupCode codes then (.invalidBackupCode, u)
      else
        let updated := codes.filter (fun c => !(c == jsToUpper backupCode))
        (.ok, { u with mfaBackupCodes := some updated })

/-! ## Helper lemmas -/

theorem scoreOf_le_five (c : StrengthChecks) : scoreOf c ≤ 5 := by
  rcases c with ⟨a, b, c', d, e⟩
  cases a <;> cases b <;> cases c' <;> cases d <;> cases e <;> decide

theorem scoreOf_eq_five_iff (c : StrengthChecks) :
    scoreOf c = 5 ↔
      (c.length && c.lowercase && c.uppercase && c.numbers && c.special) = true := by
  rcases c with ⟨a, b, c', d, e⟩
  cases a <;> cases b <;> cases c' <;> cases d <;> cases e <;> decide

theorem passwordChecksOk_iff (p : String) :
    passwordChecksOk p = true ↔ scoreOf (strengthChecks p) = 5 :=
  (scoreOf_eq_five_iff (strengthChecks p)).symm

theorem strengthLabel_spec (s : Nat) :
    ((if s < 3 then "weak" else if s < 5 then "medium" else "strong") = "weak" ↔ s < 3)
    ∧ ((if s < 3 then "weak" else if s < 5 then "medium" else "strong") = "medium" ↔
        3 ≤ s ∧ s < 5)
    ∧ ((if s < 3 then "weak" else if s < 5 then "medium" else "strong") = "strong" ↔
        5 ≤ s) := by
  have h1 : ("weak" : String) ≠ "medium" := by decide
  have h2 : ("weak" : String) ≠ "strong" := by decide
  have h3 : ("medium" : String) ≠ "weak" := by decide
  have h4 : ("medium" : String) ≠ "strong" := by decide
  have h5 : ("strong" : String) ≠ "weak" := by decide
  have h6 : ("strong" : String) ≠ "medium" := by decide
  refine ⟨?_, ?_, ?_⟩ <;> split_ifs with ha hb <;> simp_all <;> omega

/-- C2: the strength score is the count of the five satisfied checks
(at most 5), passwords classify weak below score 3, medium at 3 or 4,
strong exactly at 5, `isValid` holds exactly at score 5, and every
password scoring below 5 is rejected by register, reset-password and
change-password. -/
theorem C2_strength_gate (email name role uid cur token otp p : String)
    (db : List User) (store : List (String × OtpEntry))
    (tokens : List (String × ResetData)) (ov cap em : Bool) (now : Nat) :
    ((checkPasswordStrength p).score = scoreOf (strengthChecks p)
      ∧ (checkPasswordStrength p).score ≤ 5
      ∧ ((checkPasswordStrength p).strength = "weak" ↔
          (checkPasswordStrength p).score < 3)
      ∧ ((checkPasswordStrength p).strength = "medium" ↔
          3 ≤ (checkPasswordStrength p).score ∧ (checkPasswordStrength p).score < 5)
      ∧ ((checkPasswordStrength p).strength = "strong" ↔
          (checkPasswordStrength p).score = 5)
      ∧ ((checkPasswordStrength p).isValid = true ↔
          (checkPasswordStrength p).score = 5))
    ∧ ((checkPasswordStrength p).score < 5 →
        (register db store email name p role ov cap em otp now).1 ≠ .registered
        ∧ (resetPassword tokens db token p now).1 ≠ .resetOk
        ∧ (changePassword db uid cur p now).1 ≠ .changeOk) := by
  have hle := scoreOf_le_five (strengthChecks p)
  have hlab := strengthLabel_spec (scoreOf (strengthChecks p))
  have hsc : (checkPasswordStrength p).score = scoreOf (strengthChecks p) := rfl
  constructor
  · refine ⟨rfl, hle, ?_, ?_, ?_, ?_⟩
    · exact hlab.1
    · exact hlab.2.1
    · constructor
      · intro h
        have := hlab.2.2.mp h
        omega
      · intro h
        exact hlab.2.2.mpr (by omega)
    · simp [checkPasswordStrength]
  · intro hlt
    have hck : passwordChecksOk p = false := by
      rcases h : passwordChecksOk p
      · rfl
      · exfalso
        have h5 := (passwordChecksOk_iff p).mp h
        have : (checkPasswordStrength p).score = scoreOf (strengthChecks p) := rfl
        omega
    refine ⟨?_, ?_, ?_⟩
    · simp [register, passwordRulesOk, hck]
    · simp [resetPassword, hck]
    · simp [changePassword, hck]

/-- Witness for C2 at the concrete password "abc" (score 1). -/
theorem C2_strength_gate_witness :
    (checkPasswordStrength "abc").score < 5
    ∧ (register [] [] "a@x.com" "Ann" "abc" "jobseeker" true true true "123456" 0).1 ≠
        RegisterResult.registered
    ∧ (resetPassword [] [] "tok" "abc" 0).1 ≠ ResetResult.resetOk
    ∧ (changePassword [] "a@x.com" "cur" "abc" 0).1 ≠ ChangeResult.changeOk := by
  have h := (C2_strength_gate "a@x.com" "Ann" "jobseeker" "a@x.com" "cur" "tok"
      "123456" "abc" [] [] [] true true true 0).2 (by decide)
  exact ⟨by decide, h.1, h.2.1, h.2.2⟩

theorem loginUser_fail (u : User) (pw : String) (now : Nat)
    (hlock : lockActive u.lockUntil now = false)
    (hver : u.isVerified = true)
    (hpw : comparePassword pw u.password = false) :
    loginUser u pw now =
      (.invalidCredentials,
        { u with loginAttempts := u.loginAttempts + 1,
                 lockUntil := if MAX_LOGIN_ATTEMPTS ≤ u.loginAttempts + 1
                              then some (now + LOCK_WINDOW_MS) else none }) := by
  simp [loginUser, hlock, hver, hpw]

/-- C1: five consecutive failed logins on a fresh verified account set
`lockUntil` to the time of the fifth attempt plus 15 minutes; any login
while the lock is in the future returns the locked error and changes
nothing, whatever the password; and a correct login once the lock time
has passed succeeds, zeroes the counter and clears the lock. -/
theorem C1_lockout_lifecycle (u : User) (wrong p : String)
    (t1 t2 t3 t4 t5 now : Nat) :
    (u.loginAttempts = 0 → u.lockUntil = none → u.isVerified = true →
      comparePassword wrong u.password = false →
      (let s1 := (loginUser u wrong t1).2
       let s2 := (loginUser s1 wrong t2).2
       let s3 := (loginUser s2 wrong t3).2
       let s4 := (loginUser s3 wrong t4).2
       let s5 := (loginUser s4 wrong t5).2
       s5.lockUntil = some (t5 + LOCK_WINDOW_MS) ∧ s5.loginAttempts = 5))
    ∧ (∀ t, u.lockUntil = some t → now < t →
        loginUser u p now = (.accountLocked, u))
    ∧ (∀ t, u.lockUntil = some t → t ≤ now → u.isVerified = true →
        comparePassword p u.password = true →
        (loginUser u p now).1 = .success
        ∧ (loginUser u p now).2.loginAttempts = 0
        ∧ (loginUser u p now).2.lockUntil = none) := by
  refine ⟨?_, ?_, ?_⟩
  · intro h0 hlock hver hpw
    have e1 : loginUser u wrong t1 =
        (.invalidCredentials, { u with loginAttempts := 1, lockUntil := none }) := by
      rw [loginUser_fail u wrong t1 (by simp [lockActive, hlock]) hver hpw]
      simp [h0, MAX_LOGIN_ATTEMPTS]
    have e2 : loginUser { u with loginAttempts := 1, lockUntil := none } wrong t2 =
        (.invalidCredentials, { u with loginAttempts := 2, lockUntil := none }) := by
      rw [loginUser_fail { u with loginAttempts := 1, lockUntil := none } wrong t2
        rfl hver hpw]
      simp [MAX_LOGIN_ATTEMPTS]
    have e3 : loginUser { u with loginAttempts := 2, lockUntil := none } wrong t3 =
        (.invalidCredentials, { u with loginAttempts := 3, lockUntil := none }) := by
      rw [loginUser_fail { u with loginAttempts := 2, lockUntil := none } wrong t3
        rfl hver hpw]
      simp [MAX_LOGIN_ATTEMPTS]
    have e4 : loginUser { u with loginAttempts := 3, lockUntil := none } wrong t4 =
        (.invalidCredentials, { u with loginAttempts := 4, lockUntil := none }) := by
      rw [loginUser_fail { u with loginAttempts := 3, lockUntil := none } wrong t4
        rfl hver hpw]
      simp [MAX_LOGIN_ATTEMPTS]
    have e5 : loginUser { u with loginAttempts := 4, lockUntil := none } wrong t5 =
        (.invalidCredentials,
         { u with loginAttempts := 5, lockUntil := some (t5 + LOCK_WINDOW_MS) }) := by
      rw [loginUser_fail { u with loginAttempts := 4, lockUntil := none } wrong t5
        rfl hver hpw]
      simp [MAX_LOGIN_ATTEMPTS]
    simp [e1, e2, e3, e4, e5]
  · intro t ht hnow
    simp [loginUser, lockActive, ht, hnow]
  · intro t ht hle hver hpw
    have hlock : lockActive u.lockUntil now = false := by
      simp [lockActive, ht, Nat.not_lt.mpr hle]
    simp [loginUser, hlock, hver, hpw]

/-- A verified account used by the concrete witnesses. -/
def baseUser : User where
  email := "a@x.com"
  name := "Ann"
  role := "jobseeker"
  password := hashPassword "Str0ng!Pw"
  isVerified := true
  verificationOTP := none
  otpExpiry := none
  passwordHistory := [⟨hashPassword "Str0ng!Pw", 0⟩]
  loginAttempts := 0
  lockUntil := none
  lastLogin := none

/-- `baseUser` after its counter reached five and the lock was set. -/
def lockedUser : User :=
  { baseUser with loginAttempts := 5, lockUntil := some 100 }

/-- Witness for C1: the five-failure chain on `baseUser`, a locked call
with the correct password at time 50, and a correct login at time 200
after the lock of `lockedUser` (until 100) has passed. -/
theorem C1_lockout_lifecycle_witness :
    (let s1 := (loginUser baseUser "wrong" 1).2
     let s2 := (loginUser s1 "wrong" 2).2
     let s3 := (loginUser s2 "wrong" 3).2
     let s4 := (loginUser s3 "wrong" 4).2
     let s5 := (loginUser s4 "wrong" 5).2
     s5.lockUntil = some (5 + LOCK_WINDOW_MS) ∧ s5.loginAttempts = 5)
    ∧ loginUser lockedUser "Str0ng!Pw" 50 = (.accountLocked, lockedUser)
    ∧ ((loginUser lockedUser "Str0ng!Pw" 200).1 = .success
       ∧ (loginUser lockedUser "Str0ng!Pw" 200).2.loginAttempts = 0
       ∧ (loginUser lockedUser "Str0ng!Pw" 200).2.lockUntil = none) :=
  ⟨(C1_lockout_lifecycle baseUser "wrong" "x" 1 2 3 4 5 0).1 rfl rfl rfl (by decide),
   (C1_lockout_lifecycle lockedUser "w" "Str0ng!Pw" 0 0 0 0 0 50).2.1 100 rfl (by decide),
   (C1_lockout_lifecycle lockedUser "w" "Str0ng!Pw" 0 0 0 0 0 200).2.2 100 rfl
     (by decide) rfl (by decide)⟩

/-- Counterexample to C7 as stated: starting from the fresh verified
account, the 5th consecutive failed login itself returns the generic
invalid-credentials error, not the account-locked error. -/
theorem C7_counterexample :
    (let s1 := (loginUser baseUser "wrong" 1).2
     let s2 := (loginUser s1 "wrong" 2).2
     let s3 := (loginUser s2 "wrong" 3).2
     let s4 := (loginUser s3 "wrong" 4).2
     (loginUser s4 "wrong" 5).1 = LoginResult.invalidCredentials
     ∧ (loginUser s4 "wrong" 5).1 ≠ LoginResult.accountLocked) := by
  decide

/-- C7 amended: the 5th consecutive failed attempt sets
`lockUntil = now + 15 minutes` as a side effect but still returns the
generic invalid-credentials error; the account-locked error is returned
only by a later call made while the lock is in the future. -/
theorem C7_fifth_attempt (u : User) (pw : String) (now : Nat) :
    (u.loginAttempts = 4 → lockActive u.lockUntil now = false →
      u.isVerified = true → comparePassword pw u.password = false →
      loginUser u pw now =
        (.invalidCredentials,
         { u with loginAttempts := 5, lockUntil := some (now + LOCK_WINDOW_MS) }))
    ∧ (∀ t, u.lockUntil = some t → now < t →
        (loginUser u pw now).1 = .accountLocked) := by
  constructor
  · intro h4 hlock hver hpw
    rw [loginUser_fail u pw now hlock hver hpw]
    simp [h4, MAX_LOGIN_ATTEMPTS]
  · intro t ht hnow
    simp [loginUser, lockActive, ht, hnow]

/-- Witness for C7 amended: the account on its 5th failure at time 7,
and a locked account queried at time 50 with lock until 100. -/
theorem C7_fifth_attempt_witness :
    loginUser { baseUser with loginAttempts := 4 } "wrong" 7 =
      (.invalidCredentials,
       { baseUser with loginAttempts := 5, lockUntil := some (7 + LOCK_WINDOW_MS) })
    ∧ (loginUser lockedUser "wrong" 50).1 = LoginResult.accountLocked :=
  ⟨(C7_fifth_attempt { baseUser with loginAttempts := 4 } "wrong" 7).1
      rfl rfl rfl (by decide),
   (C7_fifth_attempt lockedUser "wrong" 50).2 100 rfl (by decide)⟩

/-- C10: once the counter is at 5 or more, every further failed attempt
made after the previous lock expired immediately sets a fresh lock of
now + 15 minutes and increments the counter; and the only call that
ever lowers the counter is a successful login, which zeroes it. -/
theorem C10_relock_until_success (u : User) (pw : String) (now t : Nat) :
    (5 ≤ u.loginAttempts → u.lockUntil = some t → t ≤ now →
      u.isVerified = true → comparePassword pw u.password = false →
      (loginUser u pw now).1 = .invalidCredentials
      ∧ (loginUser u pw now).2.lockUntil = some (now + LOCK_WINDOW_MS)
      ∧ (loginUser u pw now).2.loginAttempts = u.loginAttempts + 1)
    ∧ (∀ r u', loginUser u pw now = (r, u') →
        u'.loginAttempts < u.loginAttempts →
        r = .success ∧ u'.loginAttempts = 0) := by
  constructor
  · intro h5 ht hle hver hpw
    have hlock : lockActive u.lockUntil now = false := by
      simp [lockActive, ht, Nat.not_lt.mpr hle]
    rw [loginUser_fail u pw now hlock hver hpw]
    have : MAX_LOGIN_ATTEMPTS ≤ u.loginAttempts + 1 := by
      simp [MAX_LOGIN_ATTEMPTS]; omega
    simp [this]
  · intro r u' heq hlt
    unfold loginUser at heq
    split_ifs at heq <;> simp [Prod.ext_iff] at heq <;>
      obtain ⟨hr, hu⟩ := heq <;> subst hr <;> subst hu <;>
      simp_all

/-- Witness for C10: the locked account with counter 5 fails again at
time 200 (after its lock until 100 expired) and is locked afresh; and a
successful login zeroing the counter. -/
theorem C10_relock_until_success_witness :
    ((loginUser lockedUser "wrong" 200).1 = LoginResult.invalidCredentials
     ∧ (loginUser lockedUser "wrong" 200).2.lockUntil = some (200 + LOCK_WINDOW_MS)
     ∧ (loginUser lockedUser "wrong" 200).2.loginAttempts = lockedUser.loginAttempts + 1)
    ∧ (LoginResult.success = LoginResult.success
       ∧ (loginUser lockedUser "Str0ng!Pw" 200).2.loginAttempts = 0) :=
  ⟨(C10_relock_until_success lockedUser "wrong" 200 100).1 (by decide) rfl (by decide)
      rfl (by decide),
   (C10_relock_until_success lockedUser "Str0ng!Pw" 200 100).2 LoginResult.success
      (loginUser lockedUser "Str0ng!Pw" 200).2 (by decide) (by decide)⟩

/-- The users collection seeded with the one registered account
`a@x.com`, used as the concrete database of the enumeration check. -/
def seededDb : List User := [baseUser]

/-- C3 evaluated on the code: for a registered email and an unknown
email the forgot-password route answers `success = true` in both cases
but with two different messages, so the response does distinguish
whether the account exists. This refutes the claimed identical
envelope. -/
theorem C3_enumeration_leak :
    (forgotPassword [] seededDb "a@x.com" "tok" true 0).1.success = true
    ∧ (forgotPassword [] seededDb "b@x.com" "tok" true 0).1.success = true
    ∧ (forgotPassword [] seededDb "a@x.com" "tok" true 0).1.message ≠
        (forgotPassword [] seededDb "b@x.com" "tok" true 0).1.message := by
  decide

/-- C4: when registration passes validation, captcha and strength, the
email is new, and the delivery of the verification code fails, the call
returns the delivery error and the users collection is exactly what it
was before the call, with no record under that email. -/
theorem C4_rollback (db : List User) (store : List (String × OtpEntry))
    (email name password role otp : String) (ov cap : Bool) (now : Nat) :
    ov = true → cap = true → passwordRulesOk email password = true →
    findUser db email = none →
    (register db store email name password role ov cap false otp now).1 = .deliveryError
    ∧ (register db store email name password role ov cap false otp now).2.1 = db
    ∧ findUser (register db store email name password role ov cap false otp now).2.1
        email = none := by
  intro hov hcap hrules hfind
  subst hov; subst hcap
  have hck : passwordChecksOk password = true := by
    have h := hrules
    unfold passwordRulesOk at h
    simp only [Bool.and_eq_true] at h
    exact h.1
  have hvalid : (checkPasswordStrength password).isValid = true := by
    have h5 := (passwordChecksOk_iff password).mp hck
    simp [checkPasswordStrength, h5]
  refine ⟨?_, ?_, ?_⟩ <;> simp [register, hrules, hvalid, hfind]

/-- Witness for C4 at a concrete fresh registration whose verification
email fails to send. -/
theorem C4_rollback_witness :
    passwordRulesOk "b@x.com" "Str0ng!Pw" = true
    ∧ (register seededDb [] "b@x.com" "Bea" "Str0ng!Pw" "employer" true true false
        "123456" 0).1 = RegisterResult.deliveryError
    ∧ (register seededDb [] "b@x.com" "Bea" "Str0ng!Pw" "employer" true true false
        "123456" 0).2.1 = seededDb
    ∧ findUser (register seededDb [] "b@x.com" "Bea" "Str0ng!Pw" "employer" true true
        false "123456" 0).2.1 "b@x.com" = none := by
  have h := C4_rollback seededDb [] "b@x.com" "Bea" "Str0ng!Pw" "employer" "123456"
    true true 0 rfl rfl (by decide) (by decide)
  exact ⟨by decide, h.1, h.2.1, h.2.2⟩

theorem findUser_email (db : List User) (e : String) (u : User)
    (h : findUser db e = some u) : u.email = e := by
  unfold findUser at h
  have hp := List.find?_some (p := fun v : User => v.email == e) h
  exact eq_of_beq hp

theorem findUser_updateUser (db : List User) (e : String) (u u' : User)
    (hfind : findUser db e = some u) (he : u'.email = u.email) :
    findUser (updateUser db e u') e = some u' := by
  induction db with
  | nil => simp [findUser] at hfind
  | cons v vs ih =>
    by_cases hv : (v.email == e) = true
    · have h1 : findUser (v :: vs) e = some v := by
        unfold findUser
        exact List.find?_cons_of_pos _ hv
      rw [h1] at hfind
      have hvu : v = u := Option.some.inj hfind
      have hue : (u'.email == e) = true := by
        have h2 : u'.email = v.email := by rw [he, hvu]
        rw [h2]
        exact hv
      unfold updateUser findUser
      simp only [List.map_cons]
      rw [if_pos hv]
      exact List.find?_cons_of_pos _ hue
    · have hrest : findUser vs e = some u := by
        unfold findUser at hfind ⊢
        rwa [List.find?_cons_of_neg (p := fun v : User => v.email == e) _ hv] at hfind
      have ihh := ih hrest
      unfold updateUser findUser at ihh ⊢
      simp only [List.map_cons]
      rw [if_neg hv]
      rwa [List.find?_cons_of_neg (p := fun v : User => v.email == e) _ hv]

/-- C5: reset-password and change-password reject a new password that
matches any stored history hash; on success the stored history becomes
the new hash followed by the first four previous entries (most-recent
first) and its length never exceeds five. -/
theorem C5_password_history (tokens : List (String × ResetData)) (db : List User)
    (token password uid cur : String) (now : Nat) (rd : ResetData) (u : User) :
    (lookupStore tokens token = some rd → now ≤ rd.expiry →
      findUser db rd.userId = some u → passwordChecksOk password = true →
      ((u.passwordHistory.any (fun h => comparePassword password h.password) = true →
          (resetPassword tokens db token password now).1 = .historyRejected
          ∧ (resetPassword tokens db token password now).2.2 = db)
        ∧ (u.passwordHistory.any (fun h => comparePassword password h.password) = false →
          (resetPassword tokens db token password now).1 = .resetOk
          ∧ findUser (resetPassword tokens db token password now).2.2 u.email =
              some { u with password := hashPassword password,
                            passwordHistory := ⟨hashPassword password, now⟩ ::
                              u.passwordHistory.take (PREVIOUS_PASSWORDS_COUNT - 1) }
          ∧ (⟨hashPassword password, now⟩ ::
              u.passwordHistory.take (PREVIOUS_PASSWORDS_COUNT - 1)).length ≤
                PREVIOUS_PASSWORDS_COUNT)))
    ∧ (findUser db uid = some u → passwordChecksOk password = true →
        comparePassword cur u.password = true →
        comparePassword password u.password = false →
        ((u.passwordHistory.any (fun h => comparePassword password h.password) = true →
            (changePassword db uid cur password now).1 = .historyRejected
            ∧ (changePassword db uid cur password now).2 = db)
          ∧ (u.passwordHistory.any (fun h => comparePassword password h.password) = false →
            (changePassword db uid cur password now).1 = .changeOk
            ∧ findUser (changePassword db uid cur password now).2 u.email =
                some { u with password := hashPassword password,
                              passwordHistory := ⟨hashPassword password, now⟩ ::
                                u.passwordHistory.take (PREVIOUS_PASSWORDS_COUNT - 1) }
            ∧ (⟨hashPassword password, now⟩ ::
                u.passwordHistory.take (PREVIOUS_PASSWORDS_COUNT - 1)).length ≤
                  PREVIOUS_PASSWORDS_COUNT))) := by
  constructor
  · intro htok hexp hfind hck
    have hvalid : (checkPasswordStrength password).isValid = true := by
      have h5 := (passwordChecksOk_iff password).mp hck
      simp [checkPasswordStrength, h5]
    have hnotexp : decide (rd.expiry < now) = false :=
      decide_eq_false (Nat.not_lt.mpr hexp)
    constructor
    · intro hany
      constructor <;> simp [resetPassword, hck, hvalid, htok, hnotexp, hfind, hany]
    · intro hany
      refine ⟨?_, ?_, ?_⟩
      · simp [resetPassword, hck, hvalid, htok, hnotexp, hfind, hany]
      · have hdb : (resetPassword tokens db token password now).2.2 =
            updateUser db u.email
              { u with password := hashPassword password,
                       passwordHistory := ⟨hashPassword password, now⟩ ::
                         u.passwordHistory.take (PREVIOUS_PASSWORDS_COUNT - 1) } := by
          simp [resetPassword, hck, hvalid, htok, hnotexp, hfind, hany]
        rw [hdb]
        have hue : u.email = rd.userId := findUser_email db rd.userId u hfind
        have hfind2 : findUser db u.email = some u := by rw [hue]; exact hfind
        exact findUser_updateUser db u.email u _ hfind2 rfl
      · simp [PREVIOUS_PASSWORDS_COUNT, List.length_take]
  · intro hfind hck hcur hnew
    have hvalid : (checkPasswordStrength password).isValid = true := by
      have h5 := (passwordChecksOk_iff password).mp hck
      simp [checkPasswordStrength, h5]
    constructor
    · intro hany
      constructor <;> simp [changePassword, hck, hvalid, hfind, hcur, hnew, hany]
    · intro hany
      refine ⟨?_, ?_, ?_⟩
      · simp [changePassword, hck, hvalid, hfind, hcur, hnew, hany]
      · have hdb : (changePassword db uid cur password now).2 =
            updateUser db u.email
              { u with password := hashPassword password,
                       passwordHistory := ⟨hashPassword password, now⟩ ::
                         u.passwordHistory.take (PREVIOUS_PASSWORDS_COUNT - 1) } := by
          simp [changePassword, hck, hvalid, hfind, hcur, hnew, hany]
        rw [hdb]
        have hue : u.email = uid := findUser_email db uid u hfind
        have hfind2 : findUser db u.email = some u := by rw [hue]; exact hfind
        exact findUser_updateUser db u.email u _ hfind2 rfl
      · simp [PREVIOUS_PASSWORDS_COUNT, List.length_take]

/-- `baseUser` with a two-entry password history, current password
first. -/
def histUser : User :=
  { baseUser with
      password := hashPassword "Curr3nt@pw"
      passwordHistory := [⟨hashPassword "Curr3nt@pw", 2⟩, ⟨hashPassword "Old1@pass", 1⟩] }

/-- The reset-token store holding one unexpired token for `histUser`. -/
def resetTokens : List (String × ResetData) := [("tok", ⟨"a@x.com", "a@x.com", 1000⟩)]

/-- The users collection holding `histUser`. -/
def histDb : List User := [histUser]

/-- Witness for C5: reusing the current password is rejected by
reset-password and leaves the collection unchanged; a fresh password is
accepted by both routes and the stored history becomes the new hash
followed by the old entries, within the bound of five. -/
theorem C5_password_history_witness :
    ((resetPassword resetTokens histDb "tok" "Curr3nt@pw" 10).1 =
        ResetResult.historyRejected
      ∧ (resetPassword resetTokens histDb "tok" "Curr3nt@pw" 10).2.2 = histDb)
    ∧ ((resetPassword resetTokens histDb "tok" "Fresh9@pw!" 10).1 = ResetResult.resetOk
      ∧ findUser (resetPassword resetTokens histDb "tok" "Fresh9@pw!" 10).2.2
          histUser.email =
          some { histUser with
                   password := hashPassword "Fresh9@pw!"
                   passwordHistory := ⟨hashPassword "Fresh9@pw!", 10⟩ ::
                     histUser.passwordHistory.take (PREVIOUS_PASSWORDS_COUNT - 1) }
      ∧ (⟨hashPassword "Fresh9@pw!", 10⟩ ::
          histUser.passwordHistory.take (PREVIOUS_PASSWORDS_COUNT - 1)).length ≤
            PREVIOUS_PASSWORDS_COUNT)
    ∧ (changePassword histDb "a@x.com" "Curr3nt@pw" "Fresh9@pw!" 10).1 =
        ChangeResult.changeOk :=
  ⟨(C5_password_history resetTokens histDb "tok" "Curr3nt@pw" "a@x.com" "Curr3nt@pw"
      10 ⟨"a@x.com", "a@x.com", 1000⟩ histUser).1 (by decide) (by decide) (by decide)
      (by decide) |>.1 (by decide),
   (C5_password_history resetTokens histDb "tok" "Fresh9@pw!" "a@x.com" "Curr3nt@pw"
      10 ⟨"a@x.com", "a@x.com", 1000⟩ histUser).1 (by decide) (by decide) (by decide)
      (by decide) |>.2 (by decide),
   ((C5_password_history resetTokens histDb "tok" "Fresh9@pw!" "a@x.com" "Curr3nt@pw"
      10 ⟨"a@x.com", "a@x.com", 1000⟩ histUser).2 (by decide) (by decide) (by decide)
      (by decide) |>.2 (by decide)).1⟩

/-- C6: for an unverified user, verify-email with an absent, mismatched
or expired stored code answers the invalid-code error and leaves both
the users collection and the one-time-code store exactly unchanged;
a matching unexpired code flips the record to verified and deletes the
stored code. -/
theorem C6_verify_email (db : List User) (store : List (String × OtpEntry))
    (email otp : String) (now : Nat) (u : User) :
    findUser db email = some u → u.isVerified = false →
    ((lookupStore store email = none →
        verifyEmail db store email otp now = (.invalidCode, db, store))
    ∧ (∀ e, lookupStore store email = some e → (e.otp ≠ otp ∨ e.expiry < now) →
        verifyEmail db store email otp now = (.invalidCode, db, store))
    ∧ (∀ e, lookupStore store email = some e → e.otp = otp → now ≤ e.expiry →
        (verifyEmail db store email otp now).1 = .verified
        ∧ findUser (verifyEmail db store email otp now).2.1 email =
            some { u with isVerified := true, verificationOTP := none,
                          otpExpiry := none }
        ∧ (verifyEmail db store email otp now).2.2 = delStore store email)) := by
  intro hfind hver
  refine ⟨?_, ?_, ?_⟩
  · intro hnone
    simp [verifyEmail, hfind, hver, hnone]
  · intro e he hbad
    rcases hbad with hmm | hexp
    · have hne : (e.otp == otp) = false := by simp [hmm]
      simp [verifyEmail, hfind, hver, he, hne]
    · have hd : decide (e.expiry < now) = true := decide_eq_true hexp
      simp [verifyEmail, hfind, hver, he, hd]
  · intro e he hotp hexp
    have h1 : (e.otp == otp) = true := by simp [hotp]
    have h2 : decide (e.expiry < now) = false := decide_eq_false (Nat.not_lt.mpr hexp)
    refine ⟨?_, ?_, ?_⟩
    · simp [verifyEmail, hfind, hver, he, h1, h2]
    · have hdb : (verifyEmail db store email otp now).2.1 =
          updateUser db email
            { u with isVerified := true, verificationOTP := none,
                     otpExpiry := none } := by
        simp [verifyEmail, hfind, hver, he, h1, h2]
      rw [hdb]
      exact findUser_updateUser db email u _ hfind rfl
    · simp [verifyEmail, hfind, hver, he, h1, h2]

/-- `baseUser` before email verification, with a pending code. -/
def unverUser : User :=
  { baseUser with isVerified := false, verificationOTP := some "123456",
                  otpExpiry := some 500 }

/-- The collection holding only the unverified user. -/
def otpDb : List User := [unverUser]

/-- The one-time-code store holding the code for `unverUser`. -/
def otpStore1 : List (String × OtpEntry) := [("a@x.com", ⟨"123456", 500, 0⟩)]

/-- Witness for C6: a wrong code, an expired code and a missing store
entry are all rejected without any state change; the matching unexpired
code verifies the user and removes the stored code. -/
theorem C6_verify_email_witness :
    verifyEmail otpDb otpStore1 "a@x.com" "000000" 10 =
      (VerifyEmailResult.invalidCode, otpDb, otpStore1)
    ∧ verifyEmail otpDb otpStore1 "a@x.com" "123456" 600 =
      (VerifyEmailResult.invalidCode, otpDb, otpStore1)
    ∧ verifyEmail otpDb [] "a@x.com" "123456" 10 =
      (VerifyEmailResult.invalidCode, otpDb, [])
    ∧ ((verifyEmail otpDb otpStore1 "a@x.com" "123456" 10).1 =
        VerifyEmailResult.verified
      ∧ findUser (verifyEmail otpDb otpStore1 "a@x.com" "123456" 10).2.1 "a@x.com" =
          some { unverUser with isVerified := true, verificationOTP := none,
                                otpExpiry := none }
      ∧ (verifyEmail otpDb otpStore1 "a@x.com" "123456" 10).2.2 =
          delStore otpStore1 "a@x.com") :=
  ⟨((C6_verify_email otpDb otpStore1 "a@x.com" "000000" 10 unverUser (by decide)
      rfl).2.1) ⟨"123456", 500, 0⟩ (by decide) (Or.inl (by decide)),
   ((C6_verify_email otpDb otpStore1 "a@x.com" "123456" 600 unverUser (by decide)
      rfl).2.1) ⟨"123456", 500, 0⟩ (by decide) (Or.inr (by decide)),
   ((C6_verify_email otpDb [] "a@x.com" "123456" 10 unverUser (by decide)
      rfl).1) (by decide),
   ((C6_verify_email otpDb otpStore1 "a@x.com" "123456" 10 unverUser (by decide)
      rfl).2.2) ⟨"123456", 500, 0⟩ (by decide) rfl (by decide)⟩

/-- A user halfway through MFA setup: pending flag set, secret stored,
backup codes issued, MFA not yet enabled. -/
def pendingUser : MfaUser :=
  ⟨"a@x.com", false, true, some "JBSWY3DP", some ["AAAA1111", "BBBB2222"]⟩

/-- A TOTP oracle that accepts every code, standing for a submission of
the currently valid time-based code. -/
def totpAlways : String → String → Bool := fun _ _ => true

/-- C8 evaluated on the code: a successful setup confirmation enables
MFA and clears the pending flag, but removes `mfaSecret` from the
record instead of keeping it, and a subsequent disable call cannot
succeed even with a code the TOTP oracle accepts, because there is no
stored secret left to verify against. -/
theorem C8_secret_discarded :
    (verifySetup totpAlways pendingUser "123456").1 = MfaResult.ok
    ∧ (verifySetup totpAlways pendingUser "123456").2.mfaEnabled = true
    ∧ (verifySetup totpAlways pendingUser "123456").2.mfaSetupPending = false
    ∧ (verifySetup totpAlways pendingUser "123456").2.mfaSecret = none
    ∧ (disableMFA totpAlways (verifySetup totpAlways pendingUser "123456").2
        "123456").1 ≠ MfaResult.ok := by
  decide

/-- C9: for an MFA-enabled user, submitting any letter-case variant of
a stored backup code succeeds and removes exactly that code (matching
and removal both use the upper-cased submission); a second submission
of any variant of the same code is rejected. -/
theorem C9_backup_code_single_use (u : MfaUser) (codes : List String)
    (c s s2 : String) :
    u.mfaEnabled = true → u.mfaBackupCodes = some codes → c ∈ codes →
    jsToUpper s = c → jsToUpper s2 = c →
    (verifyBackup u s).1 = .ok
    ∧ (verifyBackup u s).2.mfaBackupCodes =
        some (codes.filter (fun x => !(x == c)))
    ∧ (verifyBackup (verifyBackup u s).2 s2).1 = .invalidBackupCode := by
  intro hen hbc hmem hs hs2
  have hcon : codes.contains c = true := List.elem_eq_true_of_mem hmem
  have hv1 : verifyBackupCode s codes = true := by
    simp only [verifyBackupCode, hs]
    exact hcon
  have h2nd : (verifyBackup u s).2 =
      { u with mfaBackupCodes := some (codes.filter (fun x => !(x == c))) } := by
    simp [verifyBackup, hen, hbc, hv1, hs]
  have hnot : (codes.filter (fun x => !(x == c))).contains c = false := by
    have hmemf : c ∉ codes.filter (fun x => !(x == c)) := by
      intro hc
      have hp := (List.mem_filter.mp hc).2
      simp at hp
    have : ¬ ((codes.filter (fun x => !(x == c))).contains c = true) := by
      intro hc
      exact hmemf (List.elem_iff.mp hc)
    exact Bool.eq_false_iff.mpr this
  refine ⟨?_, ?_, ?_⟩
  · simp [verifyBackup, hen, hbc, hv1]
  · rw [h2nd]
  · rw [h2nd]
    have hv2 : verifyBackupCode s2 (codes.filter (fun x => !(x == c))) = false := by
      simp only [verifyBackupCode, hs2]
      exact hnot
    simp [verifyBackup, hen, hv2]

/-- An MFA-enabled user holding two backup codes. -/
def mfaUser1 : MfaUser :=
  ⟨"a@x.com", true, false, some "JBSWY3DP", some ["AAAA1111", "BBBB2222"]⟩

/-- Witness for C9: the lower-case submission of the stored code
AAAA1111 succeeds once, removes it, and a mixed-case resubmission
fails. -/
theorem C9_backup_code_single_use_witness :
    (verifyBackup mfaUser1 "aaaa1111").1 = MfaResult.ok
    ∧ (verifyBackup mfaUser1 "aaaa1111").2.mfaBackupCodes =
        some (["AAAA1111", "BBBB2222"].filter (fun x => !(x == "AAAA1111")))
    ∧ (verifyBackup (verifyBackup mfaUser1 "aaaa1111").2 "aAaA1111").1 =
        MfaResult.invalidBackupCode :=
  C9_backup_code_single_use mfaUser1 ["AAAA1111", "BBBB2222"] "AAAA1111"
    "aaaa1111" "aAaA1111" rfl rfl (by decide) (by decide) (by decide)
